import Mathlib

/-!
Shallow embedding of the FyersArbitrage spot-futures arbitrage engine:
`services/analysis_service.py` (z-score statistics, entry/exit signals,
position sizing), `models/trading_models.py` (spreads, positions, P&L),
`config/settings.py` (configuration, signal enum) and
`strategy/arbitrage_strategy.py` (orchestrator cycle).

Python floats are modelled as rationals; `numpy.std` introduces a real
square root, so the derived standard deviation and z-score live in `ℝ`.
Python exceptions are modelled with `Except`: an attribute access on a
missing dataclass field or enum member is an `AttributeError`, a float
division by zero a `ZeroDivisionError`; `try/except` blocks map an error
to the handler's result.
-/

namespace FyersArb

/-! ## Configuration and enums (`config/settings.py`) -/

/-- Python exception kinds relevant to this code base. -/
inductive PyError where
  | attributeError
  | zeroDivisionError
  deriving DecidableEq, Repr

/-- `config/settings.py`, `class SignalType(Enum)`: its three members. -/
inductive SignalType where
  | LONG_FUTURES_SHORT_SPOT
  | SHORT_FUTURES_LONG_SPOT
  | CLOSE_POSITION
  deriving DecidableEq, Repr

/-- The names of the members of `SignalType` in `config/settings.py`. -/
def SignalTypeMemberNames : List String :=
  ["LONG_FUTURES_SHORT_SPOT", "SHORT_FUTURES_LONG_SPOT", "CLOSE_POSITION"]

/-- Python enum member access `SignalType.<name>`: the member, or
`AttributeError` when the enum has no member of that name. -/
def getSignalTypeMember (name : String) : Except PyError SignalType :=
  if name = "LONG_FUTURES_SHORT_SPOT" then .ok .LONG_FUTURES_SHORT_SPOT
  else if name = "SHORT_FUTURES_LONG_SPOT" then .ok .SHORT_FUTURES_LONG_SPOT
  else if name = "CLOSE_POSITION" then .ok .CLOSE_POSITION
  else .error .attributeError

/-- `config/settings.py`, `ArbitrageStrategyConfig`: the dataclass's fields. -/
structure ArbitrageStrategyConfig where
  portfolio_value : ℚ
  risk_per_trade_pct : ℚ
  max_positions : ℕ
  capital_per_leg_pct : ℚ
  basis_lookback : ℕ
  entry_zscore_threshold : ℚ
  exit_zscore_threshold : ℚ
  stop_loss_pct : ℚ
  max_holding_days : ℕ
  days_before_expiry_to_exit : ℕ
  min_volume_ratio : ℚ
  min_total_volume : ℕ
  min_basis_std : ℚ
  min_data_points : ℕ
  lot_size_multiplier : ℕ
  deriving DecidableEq, Repr

/-- The default values of `ArbitrageStrategyConfig` in `config/settings.py`. -/
def defaultConfig : ArbitrageStrategyConfig where
  portfolio_value := 100000
  risk_per_trade_pct := 2
  max_positions := 5
  capital_per_leg_pct := 50
  basis_lookback := 50
  entry_zscore_threshold := 2
  exit_zscore_threshold := 1/2
  stop_loss_pct := 1
  max_holding_days := 25
  days_before_expiry_to_exit := 3
  min_volume_ratio := 3/10
  min_total_volume := 5000
  min_basis_std := 1/100
  min_data_points := 60
  lot_size_multiplier := 1

/-- The field names of the dataclass `ArbitrageStrategyConfig`
(`config/settings.py` lines 39-82); an instance has exactly these
attributes, any other attribute access raises `AttributeError`. -/
def configFieldNames : List String :=
  ["portfolio_value", "risk_per_trade_pct", "max_positions",
   "capital_per_leg_pct", "basis_lookback", "entry_zscore_threshold",
   "exit_zscore_threshold", "stop_loss_pct", "max_holding_days",
   "days_before_expiry_to_exit", "min_volume_ratio", "min_total_volume",
   "min_basis_std", "min_data_points", "lot_size_multiplier"]

/-- Python attribute access `config.<name>` for numeric-valued fields:
returns the field's value, or raises `AttributeError` when the dataclass
has no such field. -/
def getConfigAttr (cfg : ArbitrageStrategyConfig) (name : String) :
    Except PyError ℚ :=
  if name = "portfolio_value" then .ok cfg.portfolio_value
  else if name = "risk_per_trade_pct" then .ok cfg.risk_per_trade_pct
  else if name = "max_positions" then .ok cfg.max_positions
  else if name = "capital_per_leg_pct" then .ok cfg.capital_per_leg_pct
  else if name = "basis_lookback" then .ok cfg.basis_lookback
  else if name = "entry_zscore_threshold" then .ok cfg.entry_zscore_threshold
  else if name = "exit_zscore_threshold" then .ok cfg.exit_zscore_threshold
  else if name = "stop_loss_pct" then .ok cfg.stop_loss_pct
  else if name = "max_holding_days" then .ok cfg.max_holding_days
  else if name = "days_before_expiry_to_exit" then .ok cfg.days_before_expiry_to_exit
  else if name = "min_volume_ratio" then .ok cfg.min_volume_ratio
  else if name = "min_total_volume" then .ok cfg.min_total_volume
  else if name = "min_basis_std" then .ok cfg.min_basis_std
  else if name = "min_data_points" then .ok cfg.min_data_points
  else if name = "lot_size_multiplier" then .ok cfg.lot_size_multiplier
  else .error .attributeError

/-! ## Rolling statistics (`services/analysis_service.py`) -/

/-- `numpy.mean` of a list (Python float arithmetic as exact rationals). -/
def pyMean (l : List ℚ) : ℚ := l.sum / l.length

/-- `numpy.var`: population variance (the mean squared deviation). -/
def pyVar (l : List ℚ) : ℚ := ((l.map fun x => (x - pyMean l)^2).sum) / l.length

/-- `numpy.std`: population standard deviation, the square root of `pyVar`. -/
noncomputable def pyStd (l : List ℚ) : ℝ := Real.sqrt (pyVar l)

/-- Python `min(list)` for the nonempty lists this code applies it to. -/
def pyListMin : List ℚ → ℚ
  | [] => 0
  | x :: xs => xs.foldl min x

/-- Python `max(list)` for the nonempty lists this code applies it to. -/
def pyListMax : List ℚ → ℚ
  | [] => 0
  | x :: xs => xs.foldl max x

/-- `ZScoreArbitrageAnalyzer.max_history_length`:
`max(config.basis_lookback * 3, 200)`. -/
def max_history_length (cfg : ArbitrageStrategyConfig) : ℕ :=
  max (cfg.basis_lookback * 3) 200

/-- `ZScoreArbitrageAnalyzer.update_basis_history`: append `basis_pct` to a
bounded `deque(maxlen=max_history_length)`; the oldest entry is evicted
when the deque is full. -/
def update_basis_history (cfg : ArbitrageStrategyConfig)
    (history : List ℚ) (basis_pct : ℚ) : List ℚ :=
  let h := history ++ [basis_pct]
  h.drop (h.length - max_history_length cfg)

/-- The statistics record (dict) built by `calculate_basis_statistics`. -/
structure BasisStats where
  has_sufficient_data : Bool
  data_points : ℕ
  mean : ℚ
  std : ℝ
  z_score : ℝ
  min : ℚ
  max : ℚ

/-- `ZScoreArbitrageAnalyzer.calculate_basis_statistics`: update the
history with the current observation, then compute rolling statistics
over the last `basis_lookback` stored points. Returns the stats record
and the updated history (the analyzer's mutated per-symbol deque).
`z_score` is `(current - mean) / std` when `std > min_basis_std`, else 0;
the insufficient-data branch fires when fewer than `basis_lookback`
points are stored. -/
noncomputable def calculate_basis_statistics (cfg : ArbitrageStrategyConfig)
    (history : List ℚ) (current_basis_pct : ℚ) : BasisStats × List ℚ :=
  let h := update_basis_history cfg history current_basis_pct
  if h.length < cfg.basis_lookback then
    ({ has_sufficient_data := false, data_points := h.length, mean := 0,
       std := 0, z_score := 0,
       min := current_basis_pct, max := current_basis_pct }, h)
  else
    let window := h.drop (h.length - cfg.basis_lookback)
    let basis_mean := pyMean window
    let basis_std := pyStd window
    let z_score : ℝ :=
      if (cfg.min_basis_std : ℝ) < basis_std then
        ((current_basis_pct : ℝ) - (basis_mean : ℝ)) / basis_std
      else 0
    ({ has_sufficient_data := true, data_points := h.length,
       mean := basis_mean, std := basis_std, z_score := z_score,
       min := pyListMin h, max := pyListMax h }, h)

/-- The lookback window `history[-basis_lookback:]` over the updated history. -/
def windowOf (cfg : ArbitrageStrategyConfig) (history : List ℚ) (current : ℚ) : List ℚ :=
  let h := update_basis_history cfg history current
  h.drop (h.length - cfg.basis_lookback)

/-! ## Spreads and signals (`models/trading_models.py`) -/

/-- `SpotFuturesSpread` after `__post_init__` (datetime field omitted:
no claim depends on it). -/
structure SpotFuturesSpread where
  symbol : String
  spot_price : ℚ
  futures_price : ℚ
  spread : ℚ
  spread_pct : ℚ
  basis : ℚ
  spot_volume : ℕ
  futures_volume : ℕ
  volume_ratio : ℚ
  days_to_expiry : ℕ
  avg_spread : ℚ
  std_spread : ℚ
  z_score : ℚ
  is_converging : Bool
  convergence_rate : ℚ

/-- Constructing a `SpotFuturesSpread`: `__post_init__` overwrites `spread`,
`spread_pct` (guarded by `spot_price > 0`), `basis`, and `volume_ratio`
(only when `spot_volume > 0`; otherwise the constructor argument stays). -/
def mkSpotFuturesSpread (symbol : String) (spot_price futures_price : ℚ)
    (spot_volume futures_volume : ℕ) (volume_ratio0 : ℚ)
    (days_to_expiry : ℕ) : SpotFuturesSpread where
  symbol := symbol
  spot_price := spot_price
  futures_price := futures_price
  spread := futures_price - spot_price
  spread_pct :=
    if 0 < spot_price then (futures_price - spot_price) / spot_price * 100 else 0
  basis := futures_price - spot_price
  spot_volume := spot_volume
  futures_volume := futures_volume
  volume_ratio :=
    if 0 < spot_volume then (futures_volume : ℚ) / (spot_volume : ℚ) else volume_ratio0
  days_to_expiry := days_to_expiry
  avg_spread := 0
  std_spread := 0
  z_score := 0
  is_converging := false
  convergence_rate := 0

/-- `SpotFuturesSpread.fair_value_premium`: `0.1 / 30 * days_to_expiry`. -/
def fair_value_premium (s : SpotFuturesSpread) : ℚ :=
  (1/10) / 30 * s.days_to_expiry

/-- `SpotFuturesSpread.mispricing`: `spread_pct - fair_value_premium`. -/
def SpotFuturesSpread.mispricing (s : SpotFuturesSpread) : ℚ :=
  s.spread_pct - fair_value_premium s

/-- `ArbitrageSignal` (datetime field omitted); `risk_reward_ratio` is the
`__post_init__` value `reward / risk` when `risk_amount > 0`, else 0. -/
structure ArbitrageSignal where
  symbol : String
  signal_type : SignalType
  spot_price : ℚ
  futures_price : ℚ
  spread_pct : ℚ
  mispricing : ℚ
  entry_spot_price : ℚ
  entry_futures_price : ℚ
  target_spread : ℚ
  stop_loss_spread : ℚ
  lot_size : ℕ
  quantity : ℤ
  capital_required : ℚ
  confidence : ℝ
  z_score : ℝ
  volume_ratio : ℚ
  convergence_rate : ℚ
  days_to_expiry : ℕ
  risk_amount : ℚ
  reward_amount : ℚ
  risk_reward_ratio : ℚ
  sector : String

/-! ## Entry signals and position sizing (`services/analysis_service.py`) -/

/-- Python `int(q)` on a float: truncation toward zero. -/
def pyInt (q : ℚ) : ℤ := if q < 0 then ⌈q⌉ else ⌊q⌋

/-- Python `a // n` for an int `a` and a positive int `n`: floor division
(on ℤ with a positive divisor, `Int.ediv`, Lean's `/`, is floor division). -/
def pyFloorDiv (a : ℤ) (n : ℕ) : ℤ := Int.ediv a n

/-- `symbol_manager.get_lot_size(symbol) or 1` (`config/symbols.py`):
the looked-up lot size with Python `or`-defaulting — `None` and `0` give 1. -/
def lotSizeOr1 (lotOpt : Option ℕ) : ℕ :=
  match lotOpt with
  | none => 1
  | some n => if n = 0 then 1 else n

/-- `ZScoreArbitrageAnalyzer._calculate_position_size`: `capital_per_leg =
portfolio_value * (capital_per_leg_pct / 100)`, `quantity_units =
int(capital_per_leg / spot_price)`, `quantity_lots = max(1, quantity_units
// lot_size)`. With `spot_price = 0` the float division raises
`ZeroDivisionError` and the surrounding `except` returns 0. The
`futures_price` argument is unused in the source as well. -/
def calculate_position_size (cfg : ArbitrageStrategyConfig)
    (spot_price futures_price : ℚ) (lotOpt : Option ℕ) : ℤ :=
  if spot_price = 0 then 0
  else
    let lot_size := lotSizeOr1 lotOpt
    let capital_per_leg := cfg.portfolio_value * (cfg.capital_per_leg_pct / 100)
    let quantity_units := pyInt (capital_per_leg / spot_price)
    max 1 (pyFloorDiv quantity_units lot_size)

/-- `ZScoreArbitrageAnalyzer._calculate_target_spread`: the mean basis of
the lookback window converted back to a spread value, when the symbol's
history is nonempty and long enough; else `spread * 0.5`. -/
def calculate_target_spread (cfg : ArbitrageStrategyConfig) (history : List ℚ)
    (spread : SpotFuturesSpread) (signal_type : SignalType) : ℚ :=
  if history ≠ [] ∧ cfg.basis_lookback ≤ history.length then
    pyMean (history.drop (history.length - cfg.basis_lookback)) / 100 * spread.spot_price
  else spread.spread * (1/2)

/-- `ZScoreArbitrageAnalyzer._calculate_stop_loss_spread`. -/
def calculate_stop_loss_spread (cfg : ArbitrageStrategyConfig)
    (spread : SpotFuturesSpread) (signal_type : SignalType) : ℚ :=
  if signal_type = SignalType.LONG_FUTURES_SHORT_SPOT then
    spread.spread * (1 - cfg.stop_loss_pct / 100)
  else
    spread.spread * (1 + cfg.stop_loss_pct / 100)

/-- `ZScoreArbitrageAnalyzer._calculate_confidence_from_zscore`:
`min(|z| / 3.0, 1.0)`. -/
noncomputable def calculate_confidence_from_zscore (abs_z_score : ℝ) : ℝ :=
  min (abs_z_score / 3) 1

/-- The `ArbitrageSignal` record built at the end of
`generate_entry_signal` once a direction and a nonzero quantity exist.
`risk_amount = 0`, so `__post_init__` sets `risk_reward_ratio = 0`. -/
noncomputable def entrySignalRecord (cfg : ArbitrageStrategyConfig)
    (history : List ℚ) (spread : SpotFuturesSpread) (stats : BasisStats)
    (lotOpt : Option ℕ) (sectorOpt : Option String)
    (st : SignalType) (quantity : ℤ) : ArbitrageSignal where
  symbol := spread.symbol
  signal_type := st
  spot_price := spread.spot_price
  futures_price := spread.futures_price
  spread_pct := spread.spread_pct
  mispricing := spread.spread_pct - stats.mean
  entry_spot_price := spread.spot_price
  entry_futures_price := spread.futures_price
  target_spread := calculate_target_spread cfg history spread st
  stop_loss_spread := calculate_stop_loss_spread cfg spread st
  lot_size := lotSizeOr1 lotOpt
  quantity := quantity
  capital_required := quantity * (lotSizeOr1 lotOpt : ℚ) * spread.spot_price * 2
  confidence := calculate_confidence_from_zscore |stats.z_score|
  z_score := stats.z_score
  volume_ratio := spread.volume_ratio
  convergence_rate := 0
  days_to_expiry := spread.days_to_expiry
  risk_amount := 0
  reward_amount := 0
  risk_reward_ratio := 0
  sector := sectorOpt.getD "GENERAL"

/-- `ZScoreArbitrageAnalyzer.generate_entry_signal`: data, volatility and
volume filters, then the z-score direction rule
(`z < -threshold` gives LONG_FUTURES_SHORT_SPOT,
`z > +threshold` gives SHORT_FUTURES_LONG_SPOT, else no signal), then
position sizing (`quantity == 0` declines). The lot size and sector are
external `symbol_manager` lookups, passed here as parameters. -/
noncomputable def generate_entry_signal (cfg : ArbitrageStrategyConfig)
    (history : List ℚ) (spread : SpotFuturesSpread) (stats : BasisStats)
    (lotOpt : Option ℕ) (sectorOpt : Option String) : Option ArbitrageSignal :=
  if stats.has_sufficient_data = false then none
  else if stats.std ≤ (cfg.min_basis_std : ℝ) then none
  else if spread.volume_ratio < cfg.min_volume_ratio then none
  else if spread.spot_volume + spread.futures_volume < cfg.min_total_volume then none
  else
    let signal_type : Option SignalType :=
      if stats.z_score < -(cfg.entry_zscore_threshold : ℝ) then
        some .LONG_FUTURES_SHORT_SPOT
      else if (cfg.entry_zscore_threshold : ℝ) < stats.z_score then
        some .SHORT_FUTURES_LONG_SPOT
      else none
    match signal_type with
    | none => none
    | some st =>
      let quantity := calculate_position_size cfg spread.spot_price spread.futures_price lotOpt
      if quantity = 0 then none
      else some (entrySignalRecord cfg history spread stats lotOpt sectorOpt st quantity)

/-! ## Concrete records used by counterexamples and witnesses -/

/-- A spread whose spot price is zero but whose volumes pass the filters
(`__post_init__` accepts it, setting `spread_pct = 0`). -/
def spreadZeroSpot : SpotFuturesSpread :=
  mkSpotFuturesSpread "NSE:RELIANCE-EQ" 0 5 10000 10000 0 20

/-- A statistics record with sufficient data, enough volatility and
`z_score = -3`. -/
noncomputable def statsNegThree : BasisStats where
  has_sufficient_data := true
  data_points := 51
  mean := 0
  std := 1/10
  z_score := -3
  min := -1
  max := 1

/-- An ordinary spread record passing the volume filters. -/
def spreadNormal : SpotFuturesSpread :=
  mkSpotFuturesSpread "NSE:RELIANCE-EQ" 2000 2010 10000 10000 0 20

/-- A statistics record with sufficient data, enough volatility and
`z_score = 3`. -/
noncomputable def statsPosThree : BasisStats where
  has_sufficient_data := true
  data_points := 51
  mean := 1/2
  std := 1/10
  z_score := 3
  min := -1
  max := 1

/-- A statistics record with sufficient data, enough volatility and
`z_score = 0` (used against a negative entry threshold). -/
noncomputable def statsZero : BasisStats where
  has_sufficient_data := true
  data_points := 51
  mean := 1/2
  std := 1/10
  z_score := 0
  min := -1
  max := 1

/-- The default configuration with a (degenerate) negative entry
threshold. -/
def cfgNegThreshold : ArbitrageStrategyConfig :=
  { defaultConfig with entry_zscore_threshold := -5 }

/-- Fifty basis_pct observations with mean 0.10 and population std 0.05. -/
def history0 : List ℚ := List.replicate 25 (1/20) ++ List.replicate 25 (3/20)

/-- The window the code actually uses after recording `0.25` on top of
`history0`: the oldest point is evicted and the new one included. -/
def window0 : List ℚ :=
  List.replicate 24 (1/20) ++ (List.replicate 25 (3/20) ++ [(1/4 : ℚ)])

/-- Fifty observations with mean 0.10, std 0.05, whose oldest point is
0.25: the post-append window keeps mean 0.10 and std 0.05 exactly. -/
def history1 : List ℚ :=
  (1/4) :: (List.replicate 46 (1/10) ++ [3/10, -(1/10), -(1/20)])

/-- The window after recording `0.25` on top of `history1`. -/
def window1 : List ℚ :=
  (List.replicate 46 (1/10) ++ [3/10, -(1/10), -(1/20)]) ++ [(1/4 : ℚ)]

/-! ## Positions (`models/trading_models.py`) -/

/-- `ArbitragePosition` (datetime fields omitted: no claim depends on them). -/
structure ArbitragePosition where
  symbol : String
  signal_type : SignalType
  sector : String
  spot_quantity : ℤ
  futures_quantity : ℤ
  lot_size : ℕ
  entry_spot_price : ℚ
  entry_futures_price : ℚ
  entry_spread : ℚ
  entry_spread_pct : ℚ
  target_spread : ℚ
  stop_loss_spread : ℚ
  days_to_expiry : ℕ
  spot_order_id : Option String
  futures_order_id : Option String
  spot_sl_order_id : Option String
  futures_sl_order_id : Option String
  unrealized_pnl : ℚ
  realized_pnl : ℚ
  spot_pnl : ℚ
  futures_pnl : ℚ
  max_favorable_spread : ℚ
  max_adverse_spread : ℚ
  current_spot_price : ℚ
  current_futures_price : ℚ
  current_spread : ℚ
  current_spread_pct : ℚ
  current_stop_spread : ℚ
  deriving DecidableEq, Repr

/-- `ArbitragePosition._calculate_pnl`: sign-aware leg P&Ls and their sum. -/
def calculate_pnl (p : ArbitragePosition) : ArbitragePosition :=
  let spotPnl :=
    if 0 < p.spot_quantity then
      (p.current_spot_price - p.entry_spot_price) * (p.spot_quantity : ℚ)
    else
      (p.entry_spot_price - p.current_spot_price) * |(p.spot_quantity : ℚ)|
  let futuresPnl :=
    if 0 < p.futures_quantity then
      (p.current_futures_price - p.entry_futures_price) * (p.futures_quantity : ℚ)
    else
      (p.entry_futures_price - p.current_futures_price) * |(p.futures_quantity : ℚ)|
  { p with
    spot_pnl := spotPnl,
    futures_pnl := futuresPnl,
    unrealized_pnl := spotPnl + futuresPnl }

/-- `ArbitragePosition.update_current_prices`: assigns the current prices
and spread, recomputes the P&L via `_calculate_pnl`, then compares
`signal_type` against `SignalType.LONG_SPOT_SHORT_FUTURES` — not a member
of the `SignalType` enum, so the member access raises `AttributeError`.
The error carries the partially mutated position; the spread-extremes
update below the comparison is unreachable. -/
def update_current_prices (p : ArbitragePosition) (spot_price futures_price : ℚ) :
    Except (PyError × ArbitragePosition) ArbitragePosition :=
  let p1 := { p with
    current_spot_price := spot_price,
    current_futures_price := futures_price,
    current_spread := futures_price - spot_price,
    current_spread_pct :=
      if 0 < spot_price then (futures_price - spot_price) / spot_price * 100 else 0 }
  let p2 := calculate_pnl p1
  .error (.attributeError, p2)

/-! ## Exit signals (`services/analysis_service.py`) -/

/-- `ZScoreArbitrageAnalyzer._check_stop_loss`: no stop when
`unrealized_pnl == 0`; otherwise `loss_pct = |unrealized_pnl /
total_position_value| * 100` with `total_position_value =
|entry_spot_price * spot_quantity * 2|`; stop when the P&L is a loss of
at least `stop_loss_pct`. A zero total position value raises
`ZeroDivisionError` (caught by the caller's `except`). -/
def check_stop_loss (cfg : ArbitrageStrategyConfig) (position : ArbitragePosition)
    (current_spread : SpotFuturesSpread) : Except PyError Bool :=
  if position.unrealized_pnl = 0 then .ok false
  else
    let total_position_value := |position.entry_spot_price * (position.spot_quantity : ℚ) * 2|
    if total_position_value = 0 then .error .zeroDivisionError
    else
      let loss_pct := |position.unrealized_pnl / total_position_value| * 100
      .ok (decide (position.unrealized_pnl < 0 ∧ cfg.stop_loss_pct ≤ loss_pct))

/-- `ZScoreArbitrageAnalyzer.check_exit_signal`: recompute the basis
statistics with the latest observation; `(False, "")` without sufficient
data; `(True, "BASIS_CONVERGENCE")` when `|z| < exit_zscore_threshold`;
then the stop-loss check, whose exceptions the surrounding `except` turns
into `(False, "")`. Returns the pair and the mutated history. -/
noncomputable def check_exit_signal (cfg : ArbitrageStrategyConfig)
    (history : List ℚ) (position : ArbitragePosition)
    (current_spread : SpotFuturesSpread) : (Bool × String) × List ℚ :=
  if (calculate_basis_statistics cfg history current_spread.spread_pct).1.has_sufficient_data = false then
    ((false, ""), (calculate_basis_statistics cfg history current_spread.spread_pct).2)
  else if |(calculate_basis_statistics cfg history current_spread.spread_pct).1.z_score|
      < (cfg.exit_zscore_threshold : ℝ) then
    ((true, "BASIS_CONVERGENCE"), (calculate_basis_statistics cfg history current_spread.spread_pct).2)
  else
    match check_stop_loss cfg position current_spread with
    | .error _ => ((false, ""), (calculate_basis_statistics cfg history current_spread.spread_pct).2)
    | .ok true => ((true, "STOP_LOSS"), (calculate_basis_statistics cfg history current_spread.spread_pct).2)
    | .ok false => ((false, ""), (calculate_basis_statistics cfg history current_spread.spread_pct).2)

/-- A constant history: its window has zero deviation, so the recomputed
z-score is 0 and the convergence exit fires. -/
def historyFlat : List ℚ := List.replicate 50 0

/-- A flat spread snapshot (`spread_pct = 0`). -/
def spreadFlat : SpotFuturesSpread :=
  mkSpotFuturesSpread "NSE:RELIANCE-EQ" 2000 2000 1000 1000 0 20

/-- A position in loss (used as the opaque position argument). -/
noncomputable def positionLoss : ArbitragePosition where
  symbol := "NSE:RELIANCE-EQ"
  signal_type := SignalType.LONG_FUTURES_SHORT_SPOT
  sector := "ENERGY"
  spot_quantity := -250
  futures_quantity := 250
  lot_size := 250
  entry_spot_price := 200
  entry_futures_price := 201
  entry_spread := 1
  entry_spread_pct := 1/2
  target_spread := 0
  stop_loss_spread := 2
  days_to_expiry := 20
  spot_order_id := none
  futures_order_id := none
  spot_sl_order_id := none
  futures_sl_order_id := none
  unrealized_pnl := -1200
  realized_pnl := 0
  spot_pnl := -600
  futures_pnl := -600
  max_favorable_spread := 0
  max_adverse_spread := 0
  current_spot_price := 202
  current_futures_price := 202
  current_spread := 0
  current_spread_pct := 0
  current_stop_spread := 2

/-! ## Orchestrator (`strategy/arbitrage_strategy.py`) -/

/-- The time of day the strategy reads from `datetime.now()`. -/
structure ClockTime where
  hour : ℕ
  minute : ℕ
  deriving DecidableEq, Repr

/-- The body of `evaluate_arbitrage_opportunity` (inside its `try`): the
spread-width guards read `strategy_config.min_spread_threshold` and
`strategy_config.max_spread_threshold` — not fields of
`ArbitrageStrategyConfig` — and the direction selection references the
nonexistent enum members `SignalType.LONG_SPOT_SHORT_FUTURES` and
`SignalType.SHORT_SPOT_LONG_FUTURES`; the first such read raises
`AttributeError` (everything after the direction selection — convergence,
liquidity, sizing, confidence, signal construction — is unreachable on
every path, so it is not modelled further). -/
def evaluate_arbitrage_opportunity_body (cfg : ArbitrageStrategyConfig)
    (spread : SpotFuturesSpread) : Except PyError (Option ArbitrageSignal) := do
  let abs_spread := |spread.spread_pct|
  let min_spread_threshold ← getConfigAttr cfg "min_spread_threshold"
  if abs_spread < min_spread_threshold then return none
  let max_spread_threshold ← getConfigAttr cfg "max_spread_threshold"
  if max_spread_threshold < abs_spread then return none
  let mis := spread.mispricing
  if min_spread_threshold < mis then
    let _long_spot_short_futures ← getSignalTypeMember "LONG_SPOT_SHORT_FUTURES"
    return none
  else if mis < -min_spread_threshold then
    let _short_spot_long_futures ← getSignalTypeMember "SHORT_SPOT_LONG_FUTURES"
    return none
  else
    return none

/-- `SpotFuturesArbitrageStrategy.evaluate_arbitrage_opportunity`: the
body wrapped in `try/except Exception: return None`. -/
def evaluate_arbitrage_opportunity (cfg : ArbitrageStrategyConfig)
    (spread : SpotFuturesSpread) : Option ArbitrageSignal :=
  match evaluate_arbitrage_opportunity_body cfg spread with
  | .ok r => r
  | .error _ => none

/-- `create_position_from_signal` (`models/trading_models.py`): the
quantity split compares `signal.signal_type` with
`SignalType.LONG_SPOT_SHORT_FUTURES`, which is not an enum member, so the
member access raises before any position is built. -/
def create_position_from_signal (signal : ArbitrageSignal) :
    Except PyError ArbitragePosition := do
  let long_spot_short_futures ← getSignalTypeMember "LONG_SPOT_SHORT_FUTURES"
  let qty := (signal.lot_size : ℤ) * signal.quantity
  let spot_qty := if signal.signal_type = long_spot_short_futures then qty else -qty
  let futures_qty := if signal.signal_type = long_spot_short_futures then -qty else qty
  return {
    symbol := signal.symbol
    signal_type := signal.signal_type
    sector := signal.sector
    spot_quantity := spot_qty
    futures_quantity := futures_qty
    lot_size := signal.lot_size
    entry_spot_price := signal.entry_spot_price
    entry_futures_price := signal.entry_futures_price
    entry_spread := signal.futures_price - signal.spot_price
    entry_spread_pct := signal.spread_pct
    target_spread := signal.target_spread
    stop_loss_spread := signal.stop_loss_spread
    days_to_expiry := signal.days_to_expiry
    spot_order_id := none
    futures_order_id := none
    spot_sl_order_id := none
    futures_sl_order_id := none
    unrealized_pnl := 0
    realized_pnl := 0
    spot_pnl := 0
    futures_pnl := 0
    max_favorable_spread := 0
    max_adverse_spread := 0
    current_spot_price := 0
    current_futures_price := 0
    current_spread := 0
    current_spread_pct := 0
    current_stop_spread := signal.stop_loss_spread }

/-- The orchestrator state the claims concern: `self.positions` (a dict,
modelled as an association list in insertion order) and `self.daily_pnl`.
(`market_state`, metrics and the spread history do not feed back into
positions or the daily P&L.) -/
structure StrategyState where
  positions : List (String × ArbitragePosition)
  daily_pnl : ℚ

/-- Python `symbol in dict`. -/
def dictMember (l : List (String × ArbitragePosition)) (k : String) : Bool :=
  l.any (fun kv => kv.1 == k)

/-- Python `dict[k] = v`: replace the existing binding, else append. -/
def dictInsert (l : List (String × ArbitragePosition)) (k : String)
    (v : ArbitragePosition) : List (String × ArbitragePosition) :=
  if l.any (fun kv => kv.1 == k) then
    l.map (fun kv => if kv.1 == k then (k, v) else kv)
  else l ++ [(k, v)]

/-- Python `dict.get(k)`. -/
def dictFind (l : List (String × ArbitragePosition)) (k : String) :
    Option ArbitragePosition :=
  (l.find? (fun kv => kv.1 == k)).map Prod.snd

/-- Python `del dict[k]`. -/
def dictRemove (l : List (String × ArbitragePosition)) (k : String) :
    List (String × ArbitragePosition) :=
  l.filter (fun kv => !(kv.1 == k))

/-- `SpotFuturesArbitrageStrategy.execute_signal`:
`create_position_from_signal` raises inside the `try`, the `except` logs
and returns `False`; on success the position would be stored under its
symbol. -/
def execute_signal (s : StrategyState) (signal : ArbitrageSignal) :
    StrategyState × Bool :=
  match create_position_from_signal signal with
  | .error _ => (s, false)
  | .ok position =>
    ({ s with positions := dictInsert s.positions signal.symbol position }, true)

/-- `SpotFuturesArbitrageStrategy._check_exit_conditions` after the first
enum member access succeeds (it never does): TARGET, then STOP_LOSS, then
EXPIRY_EXIT (`days_to_expiry <= 3`), then TIME_EXIT
(`now.hour >= 15 and now.minute >= 15`), in this order. -/
def check_exit_conditions_rest (position : ArbitragePosition) (now : ClockTime)
    (long_spot_short_futures : SignalType) : Option String :=
  if position.signal_type = long_spot_short_futures
      ∧ position.current_spread ≤ position.target_spread then some "TARGET"
  else if ¬ position.signal_type = long_spot_short_futures
      ∧ position.target_spread ≤ position.current_spread then some "TARGET"
  else if position.signal_type = long_spot_short_futures
      ∧ position.current_stop_spread ≤ position.current_spread then some "STOP_LOSS"
  else if ¬ position.signal_type = long_spot_short_futures
      ∧ position.current_spread ≤ position.current_stop_spread then some "STOP_LOSS"
  else if position.days_to_expiry ≤ 3 then some "EXPIRY_EXIT"
  else if 15 ≤ now.hour ∧ 15 ≤ now.minute then some "TIME_EXIT"
  else none

/-- `SpotFuturesArbitrageStrategy._check_exit_conditions`: the first
target comparison accesses `SignalType.LONG_SPOT_SHORT_FUTURES`, which
does not exist, so every call raises `AttributeError` before any exit
check is evaluated; there is no `try` here, the caller's `except` in
`monitor_positions` swallows it. -/
def check_exit_conditions (position : ArbitragePosition) (now : ClockTime) :
    Except PyError (Option String) :=
  match getSignalTypeMember "LONG_SPOT_SHORT_FUTURES" with
  | .error e => .error e
  | .ok long_spot_short_futures =>
    .ok (check_exit_conditions_rest position now long_spot_short_futures)

/-- The `for` loop of `monitor_positions`: positions without both quotes
are skipped; otherwise `update_current_prices` runs (mutating the stored
position) and, if it returned, `_check_exit_conditions` would collect an
exit reason. An exception aborts the whole loop (the rest of the dict is
left untouched and no exit is collected). Returns the positions list, the
collected `(symbol, reason)` pairs, and whether the loop aborted. -/
def monitorLoop (env : String → Option (ℚ × ℚ)) (now : ClockTime) :
    List (String × ArbitragePosition) →
    List (String × ArbitragePosition) × List (String × String) × Bool
  | [] => ([], [], false)
  | (sym, p) :: rest =>
    match env sym with
    | none =>
      let r := monitorLoop env now rest
      ((sym, p) :: r.1, r.2.1, r.2.2)
    | some (sp, fp) =>
      match update_current_prices p sp fp with
      | .error e => ((sym, e.2) :: rest, [], true)
      | .ok p2 =>
        match check_exit_conditions p2 now with
        | .error _ => ((sym, p2) :: rest, [], true)
        | .ok (some reason) =>
          let r := monitorLoop env now rest
          ((sym, p2) :: r.1, (sym, reason) :: r.2.1, r.2.2)
        | .ok none =>
          let r := monitorLoop env now rest
          ((sym, p2) :: r.1, r.2.1, r.2.2)

/-- `create_trade_result_from_position`: the exit-leg P&Ls; `net_pnl =
gross_pnl` (commission and slippage are never set). Only the net P&L
feeds back into the strategy state. -/
def trade_result_net_pnl (position : ArbitragePosition)
    (exit_spot_price exit_futures_price : ℚ) : ℚ :=
  (if 0 < position.spot_quantity then
      (exit_spot_price - position.entry_spot_price) * (position.spot_quantity : ℚ)
    else (position.entry_spot_price - exit_spot_price) * |(position.spot_quantity : ℚ)|)
  + (if 0 < position.futures_quantity then
      (exit_futures_price - position.entry_futures_price) * (position.futures_quantity : ℚ)
    else (position.entry_futures_price - exit_futures_price) * |(position.futures_quantity : ℚ)|)

/-- `SpotFuturesArbitrageStrategy._close_position`: no-op when the
position or a quote is missing; otherwise add the trade's net P&L to
`daily_pnl`, record the trade and delete the position. -/
def close_position (s : StrategyState) (env : String → Option (ℚ × ℚ))
    (sym : String) : StrategyState :=
  match dictFind s.positions sym with
  | none => s
  | some position =>
    match env sym with
    | none => s
    | some (sp, fp) =>
      { positions := dictRemove s.positions sym,
        daily_pnl := s.daily_pnl + trade_result_net_pnl position sp fp }

/-- `SpotFuturesArbitrageStrategy.monitor_positions`: run the loop; when
it aborted the `except` swallows the error and the close loop is skipped,
else every collected `(symbol, reason)` is closed. -/
def monitor_positions (s : StrategyState) (env : String → Option (ℚ × ℚ))
    (now : ClockTime) : StrategyState :=
  let r := monitorLoop env now s.positions
  let s1 : StrategyState := { s with positions := r.1 }
  if r.2.2 then s1
  else (r.2.1).foldl (fun acc kv => close_position acc env kv.1) s1

/-- `self.max_daily_loss = strategy_config.portfolio_value * 0.03`. -/
def max_daily_loss (cfg : ArbitrageStrategyConfig) : ℚ :=
  cfg.portfolio_value * (3/100)

/-- `SpotFuturesArbitrageStrategy._should_scan_for_opportunities`:
no scan at the position cap, past the daily loss limit, or from 15:00. -/
def should_scan_for_opportunities (cfg : ArbitrageStrategyConfig)
    (s : StrategyState) (now : ClockTime) : Bool :=
  if cfg.max_positions ≤ s.positions.length then false
  else if s.daily_pnl < -|max_daily_loss cfg| then false
  else if 15 ≤ now.hour then false
  else true

/-- `SpotFuturesArbitrageStrategy._scan_opportunities`: skip symbols that
already hold a position, evaluate the rest, execute the top signals up to
the remaining capacity. (The sort by confidence only reorders the
candidate list — which is in fact always empty — and is not modelled.) -/
def scan_opportunities (cfg : ArbitrageStrategyConfig)
    (trading_symbols : List String)
    (spreads : String → Option SpotFuturesSpread) (s : StrategyState) :
    StrategyState :=
  let signals := trading_symbols.foldr (fun sym acc =>
    if dictMember s.positions sym then acc
    else match spreads sym with
      | none => acc
      | some spread =>
        match evaluate_arbitrage_opportunity cfg spread with
        | none => acc
        | some sig => sig :: acc) []
  let available_slots := cfg.max_positions - s.positions.length
  (signals.take available_slots).foldl (fun acc sig => (execute_signal acc sig).1) s

/-- The per-cycle external inputs: quote prices per symbol, the current
spread records, and the wall clock. -/
structure MarketEnv where
  quotes : String → Option (ℚ × ℚ)
  spreads : String → Option SpotFuturesSpread
  now : ClockTime

/-- `SpotFuturesArbitrageStrategy.run_strategy_cycle` restricted to the
state the claims concern: `_update_market_state`, `_update_all_spreads`
and `_update_metrics` never write `positions` or `daily_pnl`, so the
cycle is: monitor (exits first), then scan when the gate admits. -/
def run_strategy_cycle (cfg : ArbitrageStrategyConfig)
    (trading_symbols : List String) (env : MarketEnv) (s : StrategyState) :
    StrategyState :=
  let s1 := monitor_positions s env.quotes env.now
  if should_scan_for_opportunities cfg s1 env.now then
    scan_opportunities cfg trading_symbols env.spreads s1
  else s1

/-- The states reachable from a fresh strategy (`__init__`: empty
positions, zero daily P&L) through strategy cycles under arbitrary
market data. -/
inductive Reachable (cfg : ArbitrageStrategyConfig)
    (trading_symbols : List String) : StrategyState → Prop where
  | init : Reachable cfg trading_symbols { positions := [], daily_pnl := 0 }
  | step (s : StrategyState) (env : MarketEnv) :
      Reachable cfg trading_symbols s →
      Reachable cfg trading_symbols (run_strategy_cycle cfg trading_symbols env s)

/-! ## Statistics lemmas and C1 -/

theorem calculate_basis_statistics_of_insufficient
    (cfg : ArbitrageStrategyConfig) (history : List ℚ) (current : ℚ)
    (h : (update_basis_history cfg history current).length < cfg.basis_lookback) :
    calculate_basis_statistics cfg history current =
      ({ has_sufficient_data := false,
         data_points := (update_basis_history cfg history current).length,
         mean := 0, std := 0, z_score := 0, min := current, max := current },
       update_basis_history cfg history current) := by
  unfold calculate_basis_statistics
  rw [if_pos h]

theorem calculate_basis_statistics_of_sufficient
    (cfg : ArbitrageStrategyConfig) (history : List ℚ) (current : ℚ)
    (h : ¬ (update_basis_history cfg history current).length < cfg.basis_lookback) :
    calculate_basis_statistics cfg history current =
      ({ has_sufficient_data := true,
         data_points := (update_basis_history cfg history current).length,
         mean := pyMean (windowOf cfg history current),
         std := pyStd (windowOf cfg history current),
         z_score :=
           if (cfg.min_basis_std : ℝ) < pyStd (windowOf cfg history current) then
             ((current : ℝ) - (pyMean (windowOf cfg history current) : ℝ))
               / pyStd (windowOf cfg history current)
           else 0,
         min := pyListMin (update_basis_history cfg history current),
         max := pyListMax (update_basis_history cfg history current) },
       update_basis_history cfg history current) := by
  unfold calculate_basis_statistics
  rw [if_neg h]
  rfl

/-- C1: for every symbol history and recorded observation, the statistics
record returned by `calculate_basis_statistics` has `z_score = 0` whenever
the number of stored observations is below `basis_lookback` or the window
standard deviation is at most `min_basis_std`, and `has_sufficient_data`
is true exactly when the stored observation count reaches `basis_lookback`. -/
theorem calculate_basis_statistics_zscore_zero_and_sufficiency
    (cfg : ArbitrageStrategyConfig) (history : List ℚ) (current : ℚ) :
    (((calculate_basis_statistics cfg history current).1.data_points < cfg.basis_lookback
        ∨ (calculate_basis_statistics cfg history current).1.std ≤ (cfg.min_basis_std : ℝ)) →
      (calculate_basis_statistics cfg history current).1.z_score = 0)
    ∧ ((calculate_basis_statistics cfg history current).1.has_sufficient_data = true
        ↔ cfg.basis_lookback ≤ (calculate_basis_statistics cfg history current).1.data_points) := by
  by_cases hlen : (update_basis_history cfg history current).length < cfg.basis_lookback
  · rw [calculate_basis_statistics_of_insufficient cfg history current hlen]
    simp [hlen, Nat.not_le_of_lt hlen]
  · rw [calculate_basis_statistics_of_sufficient cfg history current hlen]
    constructor
    · intro hcase
      rcases hcase with hlt | hle
      · exact absurd hlt hlen
      · simp only at hle ⊢
        rw [if_neg (not_lt.mpr hle)]
    · exact ⟨fun _ => Nat.le_of_not_lt hlen, fun _ => rfl⟩

/-! ## Position sizing and C10 -/

theorem pyFloorDiv_eq_div (a : ℤ) (n : ℕ) : pyFloorDiv a n = a / (n : ℤ) := rfl

/-- Floor division after an outer floor collapses to one floor:
`⌊q⌋ // n = ⌊q / n⌋` for nonnegative `q` and a natural divisor. -/
theorem floor_ediv_natCast (q : ℚ) (n : ℕ) (hq : 0 ≤ q) :
    ⌊q⌋ / (n : ℤ) = ⌊q / (n : ℚ)⌋ := by
  have h1 : ((⌊q⌋₊ : ℤ)) = ⌊q⌋ := Int.natCast_floor_eq_floor hq
  have h2 : ((⌊q / (n : ℚ)⌋₊ : ℤ)) = ⌊q / (n : ℚ)⌋ :=
    Int.natCast_floor_eq_floor (div_nonneg hq (Nat.cast_nonneg n))
  rw [← h1, ← h2, Nat.floor_div_nat q n]
  exact_mod_cast rfl

/-- C10: for positive `spot_price` and `lot_size ≥ 1` (and the nonnegative
portfolio configuration the code runs with), the proposed position size is
`max(1, ⌊portfolio_value * capital_per_leg_pct / 100 / spot_price /
lot_size⌋)` lots, hence at least one lot is always proposed. -/
theorem calculate_position_size_formula (cfg : ArbitrageStrategyConfig)
    (spot_price futures_price : ℚ) (lot : ℕ)
    (hpv : 0 ≤ cfg.portfolio_value) (hpct : 0 ≤ cfg.capital_per_leg_pct)
    (hspot : 0 < spot_price) (hlot : 1 ≤ lot) :
    calculate_position_size cfg spot_price futures_price (some lot)
      = max 1 ⌊cfg.portfolio_value * cfg.capital_per_leg_pct / 100 / spot_price / (lot : ℚ)⌋
    ∧ 1 ≤ calculate_position_size cfg spot_price futures_price (some lot) := by
  have hq : (0 : ℚ) ≤ cfg.portfolio_value * (cfg.capital_per_leg_pct / 100) / spot_price :=
    div_nonneg (mul_nonneg hpv (by positivity)) hspot.le
  have hlotne : lot ≠ 0 := Nat.one_le_iff_ne_zero.mp hlot
  have hmain : calculate_position_size cfg spot_price futures_price (some lot)
      = max 1 ⌊cfg.portfolio_value * cfg.capital_per_leg_pct / 100 / spot_price / (lot : ℚ)⌋ := by
    unfold calculate_position_size
    rw [if_neg hspot.ne.symm]
    show max 1 (pyFloorDiv (pyInt _) (lotSizeOr1 (some lot))) = _
    have hl : lotSizeOr1 (some lot) = lot := by simp [lotSizeOr1, hlotne]
    rw [hl, pyFloorDiv_eq_div]
    have hpyInt : pyInt (cfg.portfolio_value * (cfg.capital_per_leg_pct / 100) / spot_price)
        = ⌊cfg.portfolio_value * (cfg.capital_per_leg_pct / 100) / spot_price⌋ := by
      unfold pyInt
      rw [if_neg (not_lt.mpr hq)]
    rw [hpyInt, floor_ediv_natCast _ _ hq]
    congr 2
    ring
  refine ⟨hmain, ?_⟩
  rw [hmain]
  exact le_max_left 1 _

/-- Witness for C10, at the spec's concrete scenario:
`portfolio_value = 100000`, `capital_per_leg_pct = 50`, `spot_price = 2000`,
`lot_size = 250` give exactly one lot. -/
theorem calculate_position_size_formula_witness :
    calculate_position_size defaultConfig 2000 2010 (some 250) = 1 := by
  have h := calculate_position_size_formula defaultConfig 2000 2010 250
    (by norm_num [defaultConfig]) (by norm_num [defaultConfig])
    (by norm_num) (by norm_num)
  rw [h.1]
  norm_num [defaultConfig]

/-! ## Entry signal direction and C2 -/

theorem entrySignalRecord_signal_type (cfg : ArbitrageStrategyConfig)
    (history : List ℚ) (spread : SpotFuturesSpread) (stats : BasisStats)
    (lotOpt : Option ℕ) (sectorOpt : Option String) (st : SignalType) (q : ℤ) :
    (entrySignalRecord cfg history spread stats lotOpt sectorOpt st q).signal_type = st := rfl

/-- Once the data, volatility and volume filters pass,
`generate_entry_signal` is the z-score direction rule followed by the
quantity guard. -/
theorem generate_entry_signal_of_filters (cfg : ArbitrageStrategyConfig)
    (history : List ℚ) (spread : SpotFuturesSpread) (stats : BasisStats)
    (lotOpt : Option ℕ) (sectorOpt : Option String)
    (hsuff : stats.has_sufficient_data = true)
    (hstd : (cfg.min_basis_std : ℝ) < stats.std)
    (hvr : cfg.min_volume_ratio ≤ spread.volume_ratio)
    (htv : cfg.min_total_volume ≤ spread.spot_volume + spread.futures_volume) :
    generate_entry_signal cfg history spread stats lotOpt sectorOpt =
      (if stats.z_score < -(cfg.entry_zscore_threshold : ℝ) then
        (if calculate_position_size cfg spread.spot_price spread.futures_price lotOpt = 0
         then none
         else some (entrySignalRecord cfg history spread stats lotOpt sectorOpt
            SignalType.LONG_FUTURES_SHORT_SPOT
            (calculate_position_size cfg spread.spot_price spread.futures_price lotOpt)))
      else if (cfg.entry_zscore_threshold : ℝ) < stats.z_score then
        (if calculate_position_size cfg spread.spot_price spread.futures_price lotOpt = 0
         then none
         else some (entrySignalRecord cfg history spread stats lotOpt sectorOpt
            SignalType.SHORT_FUTURES_LONG_SPOT
            (calculate_position_size cfg spread.spot_price spread.futures_price lotOpt)))
      else none) := by
  unfold generate_entry_signal
  rw [hsuff]
  rw [if_neg (by decide : ¬ (true = false)), if_neg (not_le.mpr hstd),
    if_neg (not_lt.mpr hvr), if_neg (not_lt.mpr htv)]
  by_cases h1 : stats.z_score < -(cfg.entry_zscore_threshold : ℝ)
  · rw [if_pos h1, if_pos h1]
  · rw [if_neg h1, if_neg h1]
    by_cases h2 : (cfg.entry_zscore_threshold : ℝ) < stats.z_score
    · rw [if_pos h2, if_pos h2]
    · rw [if_neg h2, if_neg h2]

theorem calculate_position_size_ne_zero (cfg : ArbitrageStrategyConfig)
    (spot_price futures_price : ℚ) (lotOpt : Option ℕ) (h : spot_price ≠ 0) :
    calculate_position_size cfg spot_price futures_price lotOpt ≠ 0 := by
  unfold calculate_position_size
  rw [if_neg h]
  show max 1 (pyFloorDiv
    (pyInt (cfg.portfolio_value * (cfg.capital_per_leg_pct / 100) / spot_price))
    (lotSizeOr1 lotOpt)) ≠ 0
  have h1 := le_max_left 1 (pyFloorDiv
    (pyInt (cfg.portfolio_value * (cfg.capital_per_leg_pct / 100) / spot_price))
    (lotSizeOr1 lotOpt))
  omega

/-- C2 (amended): with sufficient data, passing volatility and volume
filters, a nonnegative entry threshold and a nonzero spot price,
`generate_entry_signal` produces no signal when `|z| ≤ threshold`, a
LONG_FUTURES_SHORT_SPOT signal exactly when `z < -threshold`, and a
SHORT_FUTURES_LONG_SPOT signal exactly when `z > +threshold`. -/
theorem generate_entry_signal_direction (cfg : ArbitrageStrategyConfig)
    (history : List ℚ) (spread : SpotFuturesSpread) (stats : BasisStats)
    (lotOpt : Option ℕ) (sectorOpt : Option String)
    (hsuff : stats.has_sufficient_data = true)
    (hstd : (cfg.min_basis_std : ℝ) < stats.std)
    (hvr : cfg.min_volume_ratio ≤ spread.volume_ratio)
    (htv : cfg.min_total_volume ≤ spread.spot_volume + spread.futures_volume)
    (hthr : 0 ≤ cfg.entry_zscore_threshold)
    (hspot : spread.spot_price ≠ 0) :
    (|stats.z_score| ≤ (cfg.entry_zscore_threshold : ℝ) →
        generate_entry_signal cfg history spread stats lotOpt sectorOpt = none)
    ∧ ((∃ sig, generate_entry_signal cfg history spread stats lotOpt sectorOpt = some sig
          ∧ sig.signal_type = SignalType.LONG_FUTURES_SHORT_SPOT)
        ↔ stats.z_score < -(cfg.entry_zscore_threshold : ℝ))
    ∧ ((∃ sig, generate_entry_signal cfg history spread stats lotOpt sectorOpt = some sig
          ∧ sig.signal_type = SignalType.SHORT_FUTURES_LONG_SPOT)
        ↔ (cfg.entry_zscore_threshold : ℝ) < stats.z_score) := by
  rw [generate_entry_signal_of_filters cfg history spread stats lotOpt sectorOpt
    hsuff hstd hvr htv]
  have hq := calculate_position_size_ne_zero cfg spread.spot_price spread.futures_price lotOpt hspot
  have hthrR : (0 : ℝ) ≤ (cfg.entry_zscore_threshold : ℝ) := by exact_mod_cast hthr
  by_cases h1 : stats.z_score < -(cfg.entry_zscore_threshold : ℝ)
  · rw [if_pos h1, if_neg hq]
    refine ⟨?_, ?_, ?_⟩
    · intro habs
      exact absurd (neg_le_of_abs_le habs) (not_le.mpr h1)
    · exact ⟨fun _ => h1, fun _ => ⟨_, rfl, rfl⟩⟩
    · constructor
      · rintro ⟨sig, hsig, hty⟩
        rw [Option.some_inj] at hsig
        rw [← hsig, entrySignalRecord_signal_type] at hty
        exact absurd hty (by decide)
      · intro h2
        exfalso
        linarith
  · rw [if_neg h1]
    by_cases h2 : (cfg.entry_zscore_threshold : ℝ) < stats.z_score
    · rw [if_pos h2, if_neg hq]
      refine ⟨?_, ?_, ?_⟩
      · intro habs
        exact absurd (le_of_abs_le habs) (not_le.mpr h2)
      · constructor
        · rintro ⟨sig, hsig, hty⟩
          rw [Option.some_inj] at hsig
          rw [← hsig, entrySignalRecord_signal_type] at hty
          exact absurd hty (by decide)
        · intro hlt
          exact absurd hlt h1
      · exact ⟨fun _ => h2, fun _ => ⟨_, rfl, rfl⟩⟩
    · rw [if_neg h2]
      refine ⟨fun _ => rfl, ?_, ?_⟩
      · exact ⟨fun h => absurd h.choose_spec.1 (by simp), fun h => absurd h h1⟩
      · exact ⟨fun h => absurd h.choose_spec.1 (by simp), fun h => absurd h h2⟩

/-- C2 counterexample. Part one: a snapshot with `spot_price = 0` passes
the volatility and volume filters and has `z_score = -3 <
-entry_zscore_threshold`, yet `generate_entry_signal` returns no signal
(the position-size division by zero is caught and yields quantity 0), so
a LONG_FUTURES_SHORT_SPOT signal is not produced "exactly when
`z < -threshold`". Part two: with a negative `entry_zscore_threshold`
(-5) and `z_score = 0 > threshold`, the signal produced is
LONG_FUTURES_SHORT_SPOT (the `z < -threshold` branch fires first), not
SHORT_FUTURES_LONG_SPOT, so "SHORT exactly when `z > +threshold`" also
needs the threshold to be nonnegative. -/
theorem generate_entry_signal_zero_spot_counterexample :
    (statsNegThree.has_sufficient_data = true
      ∧ (defaultConfig.min_basis_std : ℝ) < statsNegThree.std
      ∧ defaultConfig.min_volume_ratio ≤ spreadZeroSpot.volume_ratio
      ∧ defaultConfig.min_total_volume ≤ spreadZeroSpot.spot_volume + spreadZeroSpot.futures_volume
      ∧ statsNegThree.z_score < -(defaultConfig.entry_zscore_threshold : ℝ)
      ∧ generate_entry_signal defaultConfig [] spreadZeroSpot statsNegThree (some 250) none = none)
    ∧ ((cfgNegThreshold.entry_zscore_threshold : ℝ) < statsZero.z_score
      ∧ ∃ sig, generate_entry_signal cfgNegThreshold [] spreadNormal statsZero (some 250) none = some sig
          ∧ sig.signal_type = SignalType.LONG_FUTURES_SHORT_SPOT) := by
  constructor
  · refine ⟨rfl, by norm_num [statsNegThree, defaultConfig],
      by norm_num [spreadZeroSpot, mkSpotFuturesSpread, defaultConfig], by decide,
      by norm_num [statsNegThree, defaultConfig], ?_⟩
    rw [generate_entry_signal_of_filters defaultConfig [] spreadZeroSpot statsNegThree
      (some 250) none rfl (by norm_num [statsNegThree, defaultConfig])
      (by norm_num [spreadZeroSpot, mkSpotFuturesSpread, defaultConfig]) (by decide)]
    rw [if_pos (by norm_num [statsNegThree, defaultConfig])]
    rw [if_pos (by norm_num [calculate_position_size, spreadZeroSpot, mkSpotFuturesSpread])]
  · refine ⟨by norm_num [cfgNegThreshold, defaultConfig, statsZero], ?_⟩
    rw [generate_entry_signal_of_filters cfgNegThreshold [] spreadNormal statsZero
      (some 250) none rfl (by norm_num [statsZero, cfgNegThreshold, defaultConfig])
      (by norm_num [spreadNormal, mkSpotFuturesSpread, cfgNegThreshold, defaultConfig])
      (by decide)]
    rw [if_pos (by norm_num [statsZero, cfgNegThreshold, defaultConfig])]
    rw [if_neg (calculate_position_size_ne_zero cfgNegThreshold _ _ _
      (by norm_num [spreadNormal, mkSpotFuturesSpread]))]
    exact ⟨_, rfl, rfl⟩

/-- Witness for the amended C2: a concrete snapshot and statistics record
with `z_score = 3 > 2` produce a SHORT_FUTURES_LONG_SPOT signal. -/
theorem generate_entry_signal_direction_witness :
    ∃ sig, generate_entry_signal defaultConfig [] spreadNormal statsPosThree (some 250) none = some sig
      ∧ sig.signal_type = SignalType.SHORT_FUTURES_LONG_SPOT :=
  (generate_entry_signal_direction defaultConfig [] spreadNormal statsPosThree (some 250) none
    rfl (by norm_num [statsPosThree, defaultConfig])
    (by norm_num [spreadNormal, mkSpotFuturesSpread, defaultConfig]) (by decide)
    (by norm_num [defaultConfig]) (by norm_num [spreadNormal, mkSpotFuturesSpread])).2.2.mpr
    (by norm_num [statsPosThree, defaultConfig])

/-! ## The concrete 50-observation scenario and C5 -/

theorem history0_mean : pyMean history0 = 1/10 := by
  unfold pyMean history0
  norm_num [List.sum_append, List.sum_replicate, List.length_append,
    List.length_replicate, nsmul_eq_mul]

theorem history0_var : pyVar history0 = 1/400 := by
  unfold pyVar
  rw [history0_mean]
  unfold history0
  norm_num [List.map_append, List.map_replicate, List.sum_append,
    List.sum_replicate, List.length_append, List.length_replicate, nsmul_eq_mul]

theorem history0_std : pyStd history0 = 1/20 := by
  unfold pyStd
  rw [history0_var, show ((1/400 : ℚ) : ℝ) = (1/20 : ℝ)^2 by norm_num]
  exact Real.sqrt_sq (by norm_num)

theorem history0_update :
    update_basis_history defaultConfig history0 (1/4) = history0 ++ [1/4] := by
  unfold update_basis_history max_history_length
  norm_num [history0, List.length_append, List.length_replicate, defaultConfig]

theorem history0_window : windowOf defaultConfig history0 (1/4) = window0 := by
  unfold windowOf
  rw [history0_update]
  rfl

theorem window0_mean : pyMean window0 = 13/125 := by
  unfold pyMean window0
  norm_num [List.sum_append, List.sum_replicate, List.length_append,
    List.length_replicate, nsmul_eq_mul]

theorem window0_var : pyVar window0 = 721/250000 := by
  unfold pyVar
  rw [window0_mean]
  unfold window0
  norm_num [List.map_append, List.map_replicate, List.sum_append,
    List.sum_replicate, List.length_append, List.length_replicate, nsmul_eq_mul]

theorem window0_std_gt : (defaultConfig.min_basis_std : ℝ) < pyStd window0 := by
  unfold pyStd
  rw [window0_var]
  rw [show ((721/250000 : ℚ) : ℝ) = (721/250000 : ℝ) by norm_num]
  rw [show ((defaultConfig.min_basis_std : ℚ) : ℝ) = (1/100 : ℝ) by norm_num [defaultConfig]]
  rw [Real.lt_sqrt (by norm_num)]
  norm_num

/-- C5 counterexample: `history0` has 50 observations with mean 0.10 and
std 0.05, yet processing the new observation 0.25 does not produce
`z_score = 3`: the code's window includes the new observation and evicts
the oldest, so the window statistics are not the historical ones. -/
theorem concrete_scenario_counterexample :
    history0.length = 50 ∧ pyMean history0 = 1/10 ∧ pyStd history0 = 1/20
    ∧ (calculate_basis_statistics defaultConfig history0 (1/4)).1.z_score ≠ 3 := by
  refine ⟨by simp [history0], history0_mean, history0_std, ?_⟩
  have hsuf : ¬ (update_basis_history defaultConfig history0 (1/4)).length
      < defaultConfig.basis_lookback := by
    rw [history0_update]
    simp [history0, defaultConfig]
  rw [calculate_basis_statistics_of_sufficient _ _ _ hsuf]
  dsimp only
  rw [history0_window, if_pos window0_std_gt]
  unfold pyStd
  rw [window0_var, window0_mean]
  intro heq
  have hvpos : (0:ℝ) < ((721/250000 : ℚ) : ℝ) := by norm_num
  have hspos : (0:ℝ) < Real.sqrt ((721/250000 : ℚ) : ℝ) := Real.sqrt_pos.mpr hvpos
  rw [div_eq_iff hspos.ne.symm] at heq
  have h2 := congrArg (fun t : ℝ => t^2) heq
  simp only [mul_pow] at h2
  rw [Real.sq_sqrt hvpos.le] at h2
  norm_num at h2

theorem history1_mean : pyMean history1 = 1/10 := by
  unfold pyMean history1
  norm_num [List.sum_append, List.sum_replicate, List.length_append,
    List.length_replicate, nsmul_eq_mul]

theorem history1_var : pyVar history1 = 1/400 := by
  unfold pyVar
  rw [history1_mean]
  unfold history1
  norm_num [List.map_append, List.map_replicate, List.sum_append,
    List.sum_replicate, List.length_append, List.length_replicate, nsmul_eq_mul]

theorem history1_std : pyStd history1 = 1/20 := by
  unfold pyStd
  rw [history1_var, show ((1/400 : ℚ) : ℝ) = (1/20 : ℝ)^2 by norm_num]
  exact Real.sqrt_sq (by norm_num)

theorem history1_update :
    update_basis_history defaultConfig history1 (1/4) = history1 ++ [1/4] := by
  unfold update_basis_history max_history_length
  norm_num [history1, List.length_append, List.length_replicate, defaultConfig]

theorem history1_window : windowOf defaultConfig history1 (1/4) = window1 := by
  unfold windowOf
  rw [history1_update]
  rfl

theorem window1_mean : pyMean window1 = 1/10 := by
  unfold pyMean window1
  norm_num [List.sum_append, List.sum_replicate, List.length_append,
    List.length_replicate, nsmul_eq_mul]

theorem window1_var : pyVar window1 = 1/400 := by
  unfold pyVar
  rw [window1_mean]
  unfold window1
  norm_num [List.map_append, List.map_replicate, List.sum_append,
    List.sum_replicate, List.length_append, List.length_replicate, nsmul_eq_mul]

theorem window1_std : pyStd window1 = 1/20 := by
  unfold pyStd
  rw [window1_var, show ((1/400 : ℚ) : ℝ) = (1/20 : ℝ)^2 by norm_num]
  exact Real.sqrt_sq (by norm_num)

theorem history1_zscore :
    (calculate_basis_statistics defaultConfig history1 (1/4)).1.z_score = 3 := by
  have hsuf : ¬ (update_basis_history defaultConfig history1 (1/4)).length
      < defaultConfig.basis_lookback := by
    rw [history1_update]
    simp [history1, defaultConfig]
  rw [calculate_basis_statistics_of_sufficient _ _ _ hsuf]
  dsimp only
  rw [history1_window, window1_std, window1_mean]
  rw [if_pos (by norm_num [defaultConfig])]
  norm_num

/-- C5 (amended): with `basis_lookback = 50` and `entry_zscore_threshold
= 2.0`, given 50 historical observations with mean 0.10 and std 0.05
whose *oldest* observation is 0.25 (so that the code's window — which
evicts the oldest point and includes the new observation — again has mean
0.10 and std 0.05), processing `basis_pct = 0.25` yields `z_score = 3`
and the entry signal fires with direction SHORT_FUTURES_LONG_SPOT. -/
theorem concrete_scenario_amended :
    history1.length = 50 ∧ pyMean history1 = 1/10 ∧ pyStd history1 = 1/20
    ∧ history1.headI = 1/4
    ∧ (calculate_basis_statistics defaultConfig history1 (1/4)).1.z_score = 3
    ∧ ∃ sig, generate_entry_signal defaultConfig
        (calculate_basis_statistics defaultConfig history1 (1/4)).2 spreadNormal
        (calculate_basis_statistics defaultConfig history1 (1/4)).1 (some 250) none = some sig
        ∧ sig.signal_type = SignalType.SHORT_FUTURES_LONG_SPOT := by
  have hsuf : ¬ (update_basis_history defaultConfig history1 (1/4)).length
      < defaultConfig.basis_lookback := by
    rw [history1_update]
    simp [history1, defaultConfig]
  refine ⟨by simp [history1], history1_mean, history1_std, rfl, history1_zscore, ?_⟩
  have hstats := calculate_basis_statistics_of_sufficient defaultConfig history1 (1/4) hsuf
  have hsuffd : (calculate_basis_statistics defaultConfig history1 (1/4)).1.has_sufficient_data = true := by
    rw [hstats]
  have hstd : (defaultConfig.min_basis_std : ℝ)
      < (calculate_basis_statistics defaultConfig history1 (1/4)).1.std := by
    rw [hstats]
    dsimp only
    rw [history1_window, window1_std]
    norm_num [defaultConfig]
  rw [generate_entry_signal_of_filters defaultConfig _ spreadNormal _ (some 250) none
    hsuffd hstd
    (by norm_num [spreadNormal, mkSpotFuturesSpread, defaultConfig]) (by decide)]
  rw [if_neg (by rw [history1_zscore]; norm_num [defaultConfig])]
  rw [if_pos (by rw [history1_zscore]; norm_num [defaultConfig])]
  rw [if_neg (calculate_position_size_ne_zero defaultConfig _ _ _
    (by norm_num [spreadNormal, mkSpotFuturesSpread]))]
  exact ⟨_, rfl, rfl⟩

/-! ## Position price updates and C4 -/

/-- C4: `update_current_prices` always raises `AttributeError` — the
compared name `LONG_SPOT_SHORT_FUTURES` is not a `SignalType` member —
and it does so after the current prices, the leg P&Ls and
`unrealized_pnl` have been assigned, but with `max_favorable_spread` and
`max_adverse_spread` untouched: the update is not atomic on error and the
spread-extremes update is unreachable. -/
theorem update_current_prices_raises (p : ArbitragePosition) (spot fut : ℚ) :
    "LONG_SPOT_SHORT_FUTURES" ∉ SignalTypeMemberNames
    ∧ ∃ q, update_current_prices p spot fut = .error (.attributeError, q)
      ∧ q.current_spot_price = spot
      ∧ q.current_futures_price = fut
      ∧ q.current_spread = fut - spot
      ∧ q.spot_pnl = (if 0 < p.spot_quantity then
            (spot - p.entry_spot_price) * (p.spot_quantity : ℚ)
          else (p.entry_spot_price - spot) * |(p.spot_quantity : ℚ)|)
      ∧ q.futures_pnl = (if 0 < p.futures_quantity then
            (fut - p.entry_futures_price) * (p.futures_quantity : ℚ)
          else (p.entry_futures_price - fut) * |(p.futures_quantity : ℚ)|)
      ∧ q.unrealized_pnl = q.spot_pnl + q.futures_pnl
      ∧ q.max_favorable_spread = p.max_favorable_spread
      ∧ q.max_adverse_spread = p.max_adverse_spread := by
  refine ⟨by decide, ?_⟩
  refine ⟨calculate_pnl { p with
    current_spot_price := spot,
    current_futures_price := fut,
    current_spread := fut - spot,
    current_spread_pct := if 0 < spot then (fut - spot) / spot * 100 else 0 }, rfl,
    ?_, ?_, ?_, ?_, ?_, ?_, ?_, ?_⟩ <;>
  simp [calculate_pnl]

/-! ## Exit decision and C6 -/

/-- C6: with sufficient data, `check_exit_signal` returns
`(True, BASIS_CONVERGENCE)` whenever the recomputed `|z_score| <
exit_zscore_threshold`; returns `(True, STOP_LOSS)` when convergence does
not hold, `unrealized_pnl < 0` and the loss is at least `stop_loss_pct`
of the (nonzero) total position notional; and when both conditions hold
the reason is BASIS_CONVERGENCE. -/
theorem check_exit_signal_spec (cfg : ArbitrageStrategyConfig)
    (history : List ℚ) (position : ArbitragePosition) (spread : SpotFuturesSpread)
    (hsuff : (calculate_basis_statistics cfg history spread.spread_pct).1.has_sufficient_data = true) :
    ((|(calculate_basis_statistics cfg history spread.spread_pct).1.z_score|
        < (cfg.exit_zscore_threshold : ℝ)) →
      (check_exit_signal cfg history position spread).1 = (true, "BASIS_CONVERGENCE"))
    ∧ ((¬ |(calculate_basis_statistics cfg history spread.spread_pct).1.z_score|
        < (cfg.exit_zscore_threshold : ℝ)) →
      position.unrealized_pnl < 0 →
      position.entry_spot_price * (position.spot_quantity : ℚ) ≠ 0 →
      cfg.stop_loss_pct ≤
        abs position.unrealized_pnl
          / abs (position.entry_spot_price * (position.spot_quantity : ℚ) * 2) * 100 →
      (check_exit_signal cfg history position spread).1 = (true, "STOP_LOSS"))
    ∧ ((|(calculate_basis_statistics cfg history spread.spread_pct).1.z_score|
        < (cfg.exit_zscore_threshold : ℝ)) →
      position.unrealized_pnl < 0 →
      cfg.stop_loss_pct ≤
        abs position.unrealized_pnl
          / abs (position.entry_spot_price * (position.spot_quantity : ℚ) * 2) * 100 →
      (check_exit_signal cfg history position spread).1 = (true, "BASIS_CONVERGENCE")) := by
  have hnotfalse : ¬ ((calculate_basis_statistics cfg history spread.spread_pct).1.has_sufficient_data = false) := by
    rw [hsuff]
    decide
  refine ⟨?_, ?_, ?_⟩
  · intro hconv
    unfold check_exit_signal
    rw [if_neg hnotfalse, if_pos hconv]
  · intro hnconv hneg hne hloss
    unfold check_exit_signal
    rw [if_neg hnotfalse, if_neg hnconv]
    have htot : abs (position.entry_spot_price * (position.spot_quantity : ℚ) * 2) ≠ 0 :=
      abs_ne_zero.mpr (mul_ne_zero hne (by norm_num))
    have hcode : cfg.stop_loss_pct ≤
        abs (position.unrealized_pnl
          / abs (position.entry_spot_price * (position.spot_quantity : ℚ) * 2)) * 100 := by
      rw [abs_div, abs_abs]
      exact hloss
    have hstop : check_stop_loss cfg position spread = .ok true := by
      unfold check_stop_loss
      rw [if_neg (ne_of_lt hneg)]
      dsimp only
      rw [if_neg htot, decide_eq_true ⟨hneg, hcode⟩]
    rw [hstop]
  · intro hconv _ _
    unfold check_exit_signal
    rw [if_neg hnotfalse, if_pos hconv]

theorem historyFlat_insufficiency_false :
    ¬ (update_basis_history defaultConfig historyFlat 0).length
      < defaultConfig.basis_lookback := by
  unfold update_basis_history max_history_length
  norm_num [historyFlat, defaultConfig]

theorem historyFlat_suff :
    (calculate_basis_statistics defaultConfig historyFlat 0).1.has_sufficient_data = true := by
  rw [calculate_basis_statistics_of_sufficient _ _ _ historyFlat_insufficiency_false]

theorem historyFlat_zscore :
    (calculate_basis_statistics defaultConfig historyFlat 0).1.z_score = 0 := by
  rw [calculate_basis_statistics_of_sufficient _ _ _ historyFlat_insufficiency_false]
  dsimp only
  have hwin : windowOf defaultConfig historyFlat 0 = List.replicate 50 (0 : ℚ) := by
    unfold windowOf update_basis_history max_history_length
    norm_num [historyFlat, defaultConfig]
    exact (List.replicate_succ' 49 (0 : ℚ)).symm
  have hvar : pyVar (List.replicate 50 (0 : ℚ)) = 0 := by
    unfold pyVar pyMean
    norm_num [List.sum_replicate, List.map_replicate, List.length_replicate]
  have hstd : pyStd (List.replicate 50 (0 : ℚ)) = 0 := by
    unfold pyStd
    rw [hvar]
    simp [Real.sqrt_zero]
  rw [hwin, hstd]
  rw [if_neg (by norm_num [defaultConfig])]

/-- Witness for C6: on a flat history the recomputed z-score is 0, which
is below the exit threshold 0.5, and the exit fires with reason
BASIS_CONVERGENCE even though the position is deep in loss. -/
theorem check_exit_signal_spec_witness :
    (check_exit_signal defaultConfig historyFlat positionLoss spreadFlat).1
      = (true, "BASIS_CONVERGENCE") := by
  have hpct : spreadFlat.spread_pct = 0 := by
    norm_num [spreadFlat, mkSpotFuturesSpread]
  have h := check_exit_signal_spec defaultConfig historyFlat positionLoss spreadFlat
    (by rw [hpct]; exact historyFlat_suff)
  refine h.1 ?_
  rw [hpct, historyFlat_zscore]
  norm_num [defaultConfig]

/-! ## Orchestrator theorems: C3, C7, C8, C9 -/

theorem execute_signal_rejects (s : StrategyState) (signal : ArbitrageSignal) :
    execute_signal s signal = (s, false) := rfl

theorem foldl_execute_id (l : List ArbitrageSignal) (s : StrategyState) :
    l.foldl (fun acc sig => (execute_signal acc sig).1) s = s := by
  induction l generalizing s with
  | nil => rfl
  | cons sig rest ih => exact ih s

theorem scan_opportunities_id (cfg : ArbitrageStrategyConfig)
    (trading_symbols : List String) (spreads : String → Option SpotFuturesSpread)
    (s : StrategyState) :
    scan_opportunities cfg trading_symbols spreads s = s := by
  unfold scan_opportunities
  exact foldl_execute_id _ s

theorem monitorLoop_keys_toClose (env : String → Option (ℚ × ℚ))
    (now : ClockTime) (l : List (String × ArbitragePosition)) :
    ((monitorLoop env now l).1.map Prod.fst = l.map Prod.fst)
    ∧ (monitorLoop env now l).2.1 = [] := by
  induction l with
  | nil => exact ⟨rfl, rfl⟩
  | cons kv rest ih =>
    obtain ⟨sym, p⟩ := kv
    cases henv : env sym with
    | none =>
      simp only [monitorLoop, henv, List.map_cons]
      exact ⟨by rw [ih.1], ih.2⟩
    | some q =>
      obtain ⟨sp, fp⟩ := q
      simp only [monitorLoop, henv]
      exact ⟨rfl, rfl⟩

theorem monitor_positions_keys (s : StrategyState)
    (env : String → Option (ℚ × ℚ)) (now : ClockTime) :
    ((monitor_positions s env now).positions.map Prod.fst
        = s.positions.map Prod.fst)
    ∧ (monitor_positions s env now).daily_pnl = s.daily_pnl := by
  unfold monitor_positions
  dsimp only
  have h := monitorLoop_keys_toClose env now s.positions
  rw [h.2]
  cases hflag : (monitorLoop env now s.positions).2.2 <;>
    simp [hflag, h.1]

theorem reachable_state_empty (cfg : ArbitrageStrategyConfig)
    (trading_symbols : List String) (s : StrategyState)
    (h : Reachable cfg trading_symbols s) :
    s.positions = [] ∧ s.daily_pnl = 0 := by
  induction h with
  | init => exact ⟨rfl, rfl⟩
  | step s env _ ih =>
    obtain ⟨hp, hd⟩ := ih
    obtain ⟨pos, pnl⟩ := s
    simp only at hp hd
    subst hp
    subst hd
    have hmon : monitor_positions ⟨[], 0⟩ env.quotes env.now = ⟨[], 0⟩ := rfl
    unfold run_strategy_cycle
    rw [hmon]
    cases hb : should_scan_for_opportunities cfg ⟨[], 0⟩ env.now <;>
      simp [hb, scan_opportunities_id]

/-- C3: the orchestrator's `evaluate_arbitrage_opportunity` returns
`None` for every symbol and spread — `min_spread_threshold` is not a
field of `ArbitrageStrategyConfig`, the attribute read raises, and the
enclosing handler returns `None` — so the orchestrator's entry path never
produces a signal and the scan step never opens a position. -/
theorem evaluate_arbitrage_opportunity_none (cfg : ArbitrageStrategyConfig)
    (spread : SpotFuturesSpread) :
    "min_spread_threshold" ∉ configFieldNames
    ∧ evaluate_arbitrage_opportunity cfg spread = none
    ∧ (∀ trading_symbols spreads s,
        scan_opportunities cfg trading_symbols spreads s = s) := by
  refine ⟨by decide, rfl, ?_⟩
  intro trading_symbols spreads s
  exact scan_opportunities_id cfg trading_symbols spreads s

/-- C7 (the code as written): `_check_exit_conditions` raises
`AttributeError` on every call — its first comparison references the
nonexistent member `SignalType.LONG_SPOT_SHORT_FUTURES` — so neither the
square-off nor the expiry check is ever evaluated (they are also placed
after the target and stop-loss checks), and `monitor_positions` never
removes a position at any time of day, square-off deadline included. -/
theorem check_exit_conditions_always_raises
    (position : ArbitragePosition) (now : ClockTime) :
    check_exit_conditions position now = .error .attributeError
    ∧ "LONG_SPOT_SHORT_FUTURES" ∉ SignalTypeMemberNames
    ∧ (∀ s env, ((monitor_positions s env now).positions.map Prod.fst
        = s.positions.map Prod.fst)) := by
  refine ⟨rfl, by decide, ?_⟩
  intro s env
  exact (monitor_positions_keys s env now).1

/-- C8: in every reachable state the number of open positions is at most
`max_positions`, and once `daily_pnl < -max_daily_loss` the admission
gate rejects scanning, so no new entries are admitted in that cycle. -/
theorem position_cap_and_loss_gate (cfg : ArbitrageStrategyConfig)
    (trading_symbols : List String) (s : StrategyState)
    (h : Reachable cfg trading_symbols s) :
    s.positions.length ≤ cfg.max_positions
    ∧ (∀ now, s.daily_pnl < -|max_daily_loss cfg| →
        should_scan_for_opportunities cfg s now = false)
    ∧ (∀ env, (run_strategy_cycle cfg trading_symbols env s).positions.length
        ≤ cfg.max_positions) := by
  have hempty := reachable_state_empty cfg trading_symbols s h
  refine ⟨?_, ?_, ?_⟩
  · rw [hempty.1]
    exact Nat.zero_le _
  · intro now hloss
    unfold should_scan_for_opportunities
    by_cases hcap : cfg.max_positions ≤ s.positions.length
    · rw [if_pos hcap]
    · rw [if_neg hcap, if_pos hloss]
  · intro env
    have hstep := reachable_state_empty cfg trading_symbols _
      (Reachable.step s env h)
    rw [hstep.1]
    exact Nat.zero_le _

/-- Witness for C8, at the initial state of the default configuration. -/
theorem position_cap_and_loss_gate_witness :
    ({ positions := [], daily_pnl := 0 } : StrategyState).positions.length
      ≤ defaultConfig.max_positions :=
  (position_cap_and_loss_gate defaultConfig ["NSE:RELIANCE-EQ"] _ Reachable.init).1

/-- C9: reachable states bind at most one open position per symbol (the
dict keys are distinct), and an attempt to open a signal on a symbol that
already holds a position is rejected — `execute_signal` returns `False`
and leaves the positions dict unchanged — rather than silently
overwriting. -/
theorem one_position_per_symbol (cfg : ArbitrageStrategyConfig)
    (trading_symbols : List String) (s : StrategyState)
    (h : Reachable cfg trading_symbols s) :
    (s.positions.map Prod.fst).Nodup
    ∧ (∀ signal : ArbitrageSignal, dictMember s.positions signal.symbol = true →
        execute_signal s signal = (s, false)) := by
  have hempty := reachable_state_empty cfg trading_symbols s h
  refine ⟨?_, ?_⟩
  · rw [hempty.1]
    exact List.nodup_nil
  · intro signal _
    exact execute_signal_rejects s signal

/-- Witness for C9, at the initial state of the default configuration. -/
theorem one_position_per_symbol_witness :
    (({ positions := [], daily_pnl := 0 } : StrategyState).positions.map Prod.fst).Nodup :=
  (one_position_per_symbol defaultConfig ["NSE:RELIANCE-EQ"] _ Reachable.init).1

end FyersArb
